import Mathlib

/-!
Verification development for the GeoCentralis-Scraper crawl engine.

The Python sources under src/ are shallowly embedded here:
  * src/src/db.py          — SQLite work store (cities / properties / jobs)
  * src/src/coordinator.py — prefetch loops and the monitor loop
  * src/src/wfs_client.py  — resilient list-fetch client (hits probe, paging,
                             layer fallback)
  * src/src/http_worker.py — worker scrape loop and per-property scrape

Tables are modelled as lists of row records; SQL statements become pure
functions on a DbState.  TEXT columns holding JSON-encoded dicts are modelled
as association lists.  Timestamps written by the code (datetime.now isoformat)
are threaded through as an abstract string parameter.  Fallible Python code is
modelled with Except; an uncaught Python exception is an Except.error value.
-/

namespace GeoC

/-- A row of the cities table (db.py schema, lines 60-72).
Columns created_at is never read by the code under test and is omitted. -/
structure CityRow where
  id : Nat
  url : String
  municipalityId : String
  mrcName : String
  status : String
  totalProperties : Nat
  scrapedCount : Nat
  failedCount : Nat
  wfsFetchedAt : Option String
  updatedAt : String
deriving Repr, DecidableEq

/-- A row of the properties table (db.py schema, lines 74-89).  The three
JSON TEXT columns sidebar_data / modal_data / evaluation_data are modelled as
association lists (the json.dumps round trip is injective on these dicts). -/
structure PropertyRow where
  id : Nat
  cityId : Nat
  matricule : String
  adresse : String
  geometry : Option String
  status : String
  sidebarData : Option (List (String × String))
  modalData : Option (List (String × String))
  evaluationData : Option (List (String × String))
  errorMessage : Option String
  attempts : Nat
  scrapedAt : Option String
deriving Repr, DecidableEq

/-- The durable store: the two tables the claims are about. -/
structure DbState where
  cities : List CityRow
  properties : List PropertyRow
deriving Repr, DecidableEq

/-- An item returned by the WFS list-fetch client:
{matricule, adresse, geometry} (wfs_client._extract_properties). -/
structure PropItem where
  matricule : String
  adresse : String
  geometry : Option String
deriving Repr, DecidableEq

/-- SELECT * FROM cities WHERE status=? ORDER BY id LIMIT 1. -/
def selectCityByStatus (s : DbState) (st : String) : Option CityRow :=
  (s.cities.filter (fun c => c.status = st)).foldl
    (fun acc c =>
      match acc with
      | none => some c
      | some b => if c.id < b.id then some c else some b)
    none

/-- UPDATE cities SET status=?, updated_at=? WHERE id=?. -/
def updateCityStatus (s : DbState) (cid : Nat) (st : String) (now : String) : DbState :=
  { s with cities := s.cities.map (fun c =>
      if c.id = cid then { c with status := st, updatedAt := now } else c) }

/-- db.get_next_city_for_wfs (db.py lines 181-190): SELECT the first pending
city, then (as a second statement) UPDATE it to fetching_wfs.  Returns the
selected row and the new state. -/
def get_next_city_for_wfs (s : DbState) (now : String) : Option CityRow × DbState :=
  match selectCityByStatus s "pending" with
  | some row => (some row, updateCityStatus s row.id "fetching_wfs" now)
  | none => (none, s)

/-- db.claim_city_for_scraping (db.py lines 206-215): SELECT the first
wfs_done city, then UPDATE it to scraping. -/
def claim_city_for_scraping (s : DbState) (now : String) : Option CityRow × DbState :=
  match selectCityByStatus s "wfs_done" with
  | some row => (some row, updateCityStatus s row.id "scraping" now)
  | none => (none, s)

/-- db.mark_city_wfs_done (db.py lines 193-198). -/
def mark_city_wfs_done (s : DbState) (cid : Nat) (total : Nat) (now : String) : DbState :=
  { s with cities := s.cities.map (fun c =>
      if c.id = cid then
        { c with status := "wfs_done", totalProperties := total,
                 wfsFetchedAt := some now, updatedAt := now }
      else c) }

/-- db.mark_city_wfs_failed (db.py lines 201-203).  NOTE: in the source this
function takes exactly one parameter, city_id — there is no reason column and
no reason parameter. -/
def mark_city_wfs_failed (s : DbState) (cid : Nat) (now : String) : DbState :=
  updateCityStatus s cid "wfs_failed" now

/-- COUNT of property rows of one city with a given status (the CASE WHEN sums
inside db.update_city_counts, and the filtered COUNT queries). -/
def countPropsWithStatus (s : DbState) (cid : Nat) (st : String) : Nat :=
  (s.properties.filter (fun p => p.cityId = cid && p.status = st)).length

/-- db.update_city_counts (db.py lines 218-230): recompute scraped_count and
failed_count of one city from its property rows. -/
def update_city_counts (s : DbState) (cid : Nat) (now : String) : DbState :=
  { s with cities := s.cities.map (fun c =>
      if c.id = cid then
        { c with scrapedCount := countPropsWithStatus s cid "scraped",
                 failedCount := countPropsWithStatus s cid "failed",
                 updatedAt := now }
      else c) }

/-- SELECT * FROM cities WHERE id=? (db.get_city). -/
def findCity (s : DbState) (cid : Nat) : Option CityRow :=
  s.cities.find? (fun c => c.id = cid)

/-- db.mark_property_scraped (db.py lines 300-308). -/
def mark_property_scraped (s : DbState) (pid : Nat)
    (sidebar modal evaluation : List (String × String)) (now : String) : DbState :=
  { s with properties := s.properties.map (fun p =>
      if p.id = pid then
        { p with status := "scraped", sidebarData := some sidebar,
                 modalData := some modal, evaluationData := some evaluation,
                 scrapedAt := some now }
      else p) }

/-- db.mark_property_failed (db.py lines 311-316). -/
def mark_property_failed (s : DbState) (pid : Nat) (msg : String) : DbState :=
  { s with properties := s.properties.map (fun p =>
      if p.id = pid then { p with status := "failed", errorMessage := some msg } else p) }

/-- db.mark_property_scraping (db.py lines 295-297). -/
def mark_property_scraping (s : DbState) (pid : Nat) : DbState :=
  { s with properties := s.properties.map (fun p =>
      if p.id = pid then { p with status := "scraping", attempts := p.attempts + 1 } else p) }

/-- One INSERT OR IGNORE INTO properties step: skipped when the
UNIQUE(city_id, matricule) constraint already has a row. -/
def insertPropertyRow (s : DbState) (cid : Nat) (item : PropItem) : DbState × Bool :=
  if s.properties.any (fun p => p.cityId = cid && p.matricule = item.matricule) then
    (s, false)
  else
    ({ s with properties := s.properties ++
        [{ id := (s.properties.map (fun p => p.id)).foldl max 0 + 1,
           cityId := cid, matricule := item.matricule, adresse := item.adresse,
           geometry := item.geometry, status := "pending", sidebarData := none,
           modalData := none, evaluationData := none, errorMessage := none,
           attempts := 0, scrapedAt := none }] }, true)

/-- db.insert_properties (db.py lines 262-276): bulk INSERT OR IGNORE,
counting the rows actually inserted. -/
def insert_properties (s : DbState) (cid : Nat) : List PropItem → DbState × Nat
  | [] => (s, 0)
  | item :: rest =>
    match insertPropertyRow s cid item with
    | (s', inserted) =>
      match insert_properties s' cid rest with
      | (s'', n) => (s'', n + (if inserted then 1 else 0))

/-!
### Statement-level interleaving of the city-claim operations

get_next_city_for_wfs and claim_city_for_scraping each execute TWO SQL
statements: a SELECT and then an UPDATE.  With the Python sqlite3 module
(default isolation level) the SELECT runs in autocommit mode — the write
transaction only begins at the UPDATE — so two threads may both run their
SELECT before either runs its UPDATE.  We model one invocation as a
two-micro-step thread and execute explicit interleavings.
-/

/-- Thread-local state of one in-flight claim invocation.
pc 0 = before the SELECT, pc 1 = before the UPDATE, pc 2 = returned.
result = some r once the invocation has returned r. -/
structure ClaimThread where
  pc : Nat
  selected : Option CityRow
  result : Option (Option CityRow)
deriving Repr, DecidableEq

/-- A claim thread that has not started yet. -/
def claimThreadInit : ClaimThread := { pc := 0, selected := none, result := none }

/-- One micro-step of a claim invocation over the status transition
fromSt → toSt (fromSt = pending, toSt = fetching_wfs for
get_next_city_for_wfs; wfs_done → scraping for claim_city_for_scraping). -/
def claimStep (fromSt toSt now : String) (db : DbState) (t : ClaimThread) :
    DbState × ClaimThread :=
  match t.pc with
  | 0 => (db, { t with pc := 1, selected := selectCityByStatus db fromSt })
  | 1 =>
    match t.selected with
    | some row =>
      (updateCityStatus db row.id toSt now, { t with pc := 2, result := some (some row) })
    | none => (db, { t with pc := 2, result := some none })
  | _ => (db, t)

/-- Run two concurrent claim invocations under an explicit schedule:
true picks thread A for the next micro-step, false picks thread B. -/
def runTwoClaims (fromSt toSt now : String) (db : DbState) (a b : ClaimThread) :
    List Bool → DbState × ClaimThread × ClaimThread
  | [] => (db, a, b)
  | pick :: rest =>
    if pick then
      match claimStep fromSt toSt now db a with
      | (db', a') => runTwoClaims fromSt toSt now db' a' b rest
    else
      match claimStep fromSt toSt now db b with
      | (db', b') => runTwoClaims fromSt toSt now db' a b' rest

/-!
### db.reset_failed_properties and the nested-connection write lock

Every db.py helper opens its own SQLite connection (`_conn`, db.py lines
29-44: busy_timeout = 10 s, commit on exit, rollback on exception).  The
Python sqlite3 module begins the write transaction at the first
INSERT/UPDATE/DELETE and holds the single SQLite writer lock until commit.

reset_failed_properties (db.py lines 251-257) runs its UPDATE on its own
connection and then, BEFORE committing, calls update_city_counts — which
opens a SECOND connection and issues another UPDATE.  The first connection
still holds the writer lock and cannot release it (the same thread is blocked
inside the nested call), so the second UPDATE waits out busy_timeout and
SQLite surfaces the lock-contention error (sqlite3.OperationalError
"database is locked"; spec.md section 6 calls this the contended-write retry
budget).  The exception propagates and the outer transaction rolls back.

Contrast db.mark_city_completed (db.py lines 233-236), which calls
update_city_counts BEFORE opening its own connection.
-/

/-- SQLite errors the embedding distinguishes. -/
inductive SqlErr where
  | databaseLocked
deriving Repr, DecidableEq

/-- The pure effect of the UPDATE inside reset_failed_properties, together
with SELECT changes(): set every failed property of the city back to
pending / attempts 0 / error_message NULL, and count the rows changed. -/
def resetFailedPropsUpdate (s : DbState) (cid : Nat) : DbState × Nat :=
  ({ s with properties := s.properties.map (fun p =>
      if p.cityId = cid && p.status = "failed" then
        { p with status := "pending", attempts := 0, errorMessage := none }
      else p) },
   (s.properties.filter (fun p => p.cityId = cid && p.status = "failed")).length)

/-- update_city_counts as executed on its own fresh connection: the SELECT
always succeeds (WAL readers never block and see the last committed state),
but the UPDATE needs the single writer lock; if another connection of the
same thread holds it, the busy timeout expires and SQLITE_BUSY surfaces. -/
def update_city_counts_conn (committed : DbState) (cid : Nat) (now : String)
    (writerLockHeldByCaller : Bool) : Except SqlErr DbState :=
  if writerLockHeldByCaller then Except.error SqlErr.databaseLocked
  else Except.ok (update_city_counts committed cid now)

/-- db.reset_failed_properties (db.py lines 251-257) as executed: conn1 runs
the properties UPDATE (beginning its write transaction), reads changes(),
then calls update_city_counts, which opens conn2 while conn1 still holds the
writer lock.  Returns the final COMMITTED state and either the count or the
propagated exception (on exception conn1 rolls back). -/
def reset_failed_properties (s : DbState) (cid : Nat) (now : String) :
    DbState × Except SqlErr Nat :=
  match resetFailedPropsUpdate s cid with
  | (working, cnt) =>
    match update_city_counts_conn s cid now true with
    | Except.error e => (s, Except.error e)
    | Except.ok _ => (working, Except.ok cnt)

/-!
### Coordinator: the WFS prefetch loop (coordinator.py lines 133-165)

The loop body claims a city, calls fetch_municipality_properties, and on an
empty result or an exception calls db.mark_city_wfs_failed(city_id, reason)
— with TWO positional arguments, while db.py line 201 defines
mark_city_wfs_failed(city_id) with ONE parameter.  Python raises TypeError
at the call site before the body of the callee runs.  We model the Python
call boundary explicitly so that the arity mismatch is visible.
-/

/-- A Python value passed as a positional argument. -/
inductive PyValue where
  | int (n : Nat)
  | str (s : String)
deriving Repr, DecidableEq

/-- A Python exception escaping a statement. -/
inductive PyErr where
  | typeError (msg : String)
  | other (msg : String)
deriving Repr, DecidableEq

/-- The message str(exc) of an exception. -/
def pyErrMsg : PyErr → String
  | PyErr.typeError m => m
  | PyErr.other m => m

/-- Calling db.mark_city_wfs_failed with a list of positional arguments.
The def in db.py line 201 binds exactly one parameter (city_id); any other
argument count raises TypeError before the UPDATE runs. -/
def callMarkCityWfsFailed (s : DbState) (now : String) (args : List PyValue) :
    Except PyErr DbState :=
  match args with
  | [PyValue.int cid] => Except.ok (mark_city_wfs_failed s cid now)
  | _ => Except.error (PyErr.typeError
      "mark_city_wfs_failed() takes 1 positional argument but 2 were given")

/-- Outcome of the fetch_municipality_properties call as seen by the
prefetch loop: a value, or an escaped exception. -/
inductive FetchOutcome where
  | ok (props : List PropItem)
  | exc (msg : String)
deriving Repr, DecidableEq

/-- The per-city part of Coordinator._wfs_prefetch_loop (coordinator.py
lines 148-159): the inner try block and its except handler, both inside the
outer try of the loop body.  Returns the db state after the iteration.
When the except handler itself raises (the TypeError from the two-argument
call), the exception reaches the outer handler, which only logs and sleeps —
the db state is unchanged. -/
def prefetch_handle_city (s : DbState) (now : String) (cid : Nat)
    (fetch : FetchOutcome) : DbState :=
  match
    (match fetch with
     | FetchOutcome.ok props =>
       if props.isEmpty then
         callMarkCityWfsFailed s now
           [PyValue.int cid, PyValue.str "No properties found on any WFS layer"]
       else
         match insert_properties s cid props with
         | (s', _) => Except.ok (mark_city_wfs_done s' cid props.length now)
     | FetchOutcome.exc msg => Except.error (PyErr.other msg)) with
  | Except.ok s' => s'
  | Except.error e =>
    match callMarkCityWfsFailed s now [PyValue.int cid, PyValue.str (pyErrMsg e)] with
    | Except.ok s' => s'
    | Except.error _ => s

/-- Loop control observed by the thread running a while body. -/
inductive LoopCtl where
  | continueLoop
  | exitLoop
deriving Repr, DecidableEq

/-- One pass of the body of Coordinator._wfs_prefetch_loop (lines 135-165).
Every branch of the body ends in continue or falls through to the next
iteration (sleeps elided); the body contains no break or return, and the
whole body is wrapped in try/except Exception.  fetch is the outcome of the
fetch_municipality_properties call for the claimed city (unused when no city
is pending). -/
def wfs_prefetch_body (s : DbState) (now : String) (fetch : FetchOutcome) :
    DbState × LoopCtl :=
  match get_next_city_for_wfs s now with
  | (none, s') => (s', LoopCtl.continueLoop)
  | (some city, s') => (prefetch_handle_city s' now city.id fetch, LoopCtl.continueLoop)

/-!
### Coordinator: the monitor loop (coordinator.py lines 169-194)

The monitor flips the job to completed only when no worker thread AND no wfs
prefetch thread is alive.  A wfs prefetch thread stays inside its while loop
as long as the stop event is unset (its body always continues, see
wfs_prefetch_body), so wfsAlive can only become false once stopEvent is set.
-/

/-- The in-memory coordinator state the monitor loop reads. -/
structure SysState where
  stopEvent : Bool
  running : Bool
  workerAlive : Bool
  wfsAlive : Bool
  jobStatus : String
deriving Repr, DecidableEq

/-- One iteration of Coordinator._monitor_loop: exits if the stop event is
set or running is false; flips the job to completed only when both thread
pools are dead; otherwise only refreshes progress. -/
def monitor_step (st : SysState) : SysState :=
  if st.stopEvent then st
  else if !st.running then st
  else if !st.workerAlive && !st.wfsAlive then
    { st with jobStatus := "completed", running := false }
  else st

/-!
### WFS client (wfs_client.py)

The upstream is abstracted at the HTTP boundary: a hits probe returns, per
attempt, either a parsed count, a Timeout/ConnectionError (the only
exceptions the retry loop catches), or another HTTP error (raise_for_status,
which the retry loop does not catch).  The paged GetFeature endpoint over a
fixed finite feature collection answers the request at offset start with
collection[start : start + page_size], which is GeoServer paging semantics
and the fake paged endpoint of spec.md section 8.7.
-/

/-- config.WFS_MAX_RETRIES. -/
def WFS_MAX_RETRIES : Nat := 3

/-- config.WFS_PAGE_SIZE. -/
def WFS_PAGE_SIZE : Nat := 2000

/-- config.WFS_LAYER, the primary layer. -/
def WFS_LAYER : String := "mat_uev_cr_s"

/-- config.WFS_FALLBACK_LAYERS. -/
def WFS_FALLBACK_LAYERS : List String :=
  ["v_a_residentiel_1", "v_a_multiresidentiel_3", "v_a_non_residentiel_4", "v_a_agricole_2"]

/-- What one hits request attempt produces. -/
inductive HitsResp where
  | count (n : Int)
  | httpErr (msg : String)
  | netErr (msg : String)
deriving Repr, DecidableEq

/-- The retry loop of _wfs_hits (wfs_client.py lines 54-76): attempt indexes
the successive requests, remaining counts attempts left, last is str of the
last Timeout/ConnectionError.  A count returns; an HTTP error from
raise_for_status propagates at once (the except clause catches only Timeout
and ConnectionError); a net error is retried until attempts run out, then
the last exception is re-raised. -/
def wfsHitsGo (resp : Nat → HitsResp) : Nat → Nat → String → Except String Int
  | _, 0, last => Except.error last
  | attempt, r + 1, _ =>
    match resp attempt with
    | HitsResp.count n => Except.ok n
    | HitsResp.httpErr m => Except.error m
    | HitsResp.netErr m =>
      match r with
      | 0 => Except.error m
      | r' + 1 => wfsHitsGo resp (attempt + 1) (r' + 1) m

/-- wfs_client._wfs_hits for a given per-attempt response oracle. -/
def wfs_hits (resp : Nat → HitsResp) : Except String Int :=
  wfsHitsGo resp 0 WFS_MAX_RETRIES "None"

/-- A GeoJSON feature as read by _extract_properties: properties.matricule,
properties.adresse_immeuble, properties.adresse, and the geometry payload.
Absent keys are none; Python treats none and the empty string as falsy. -/
structure Feature where
  matricule : Option String
  adresseImmeuble : Option String
  adresse : Option String
  geometry : Option String
deriving Repr, DecidableEq

/-- The page the upstream returns for a request at a given offset:
collection[start : start + pageSize]. -/
def pageAt (server : List Feature) (ps start : Nat) : List Feature :=
  (server.drop start).take ps

/-- The offsets (startIndex values) at which _wfs_fetch_all
(wfs_client.py lines 120-154) issues paged requests: it starts at 0,
advances start by len(page), and stops after a page that is empty or shorter
than the page size. -/
def fetchAllOffsets (server : List Feature) (ps start : Nat) : List Nat :=
  if (pageAt server ps start).isEmpty then [start]
  else if (pageAt server ps start).length < ps then [start]
  else start :: fetchAllOffsets server ps (start + (pageAt server ps start).length)
termination_by server.length - start
decreasing_by
  simp only [pageAt, List.isEmpty_iff_length_eq_zero, List.length_take,
    List.length_drop] at *
  omega

/-- The features _wfs_fetch_all accumulates.  When the very first page is
empty the code falls back to one unpaginated WFS 1.0.0 request (lines
128-147), modelled by the legacy list; an empty page at a later offset just
ends the loop. -/
def fetchAllFeatures (server legacy : List Feature) (ps start : Nat) : List Feature :=
  if (pageAt server ps start).isEmpty then (if start = 0 then legacy else [])
  else if (pageAt server ps start).length < ps then pageAt server ps start
  else pageAt server ps start ++
    fetchAllFeatures server legacy ps (start + (pageAt server ps start).length)
termination_by server.length - start
decreasing_by
  simp only [pageAt, List.isEmpty_iff_length_eq_zero, List.length_take,
    List.length_drop] at *
  omega

/-- wfs_client._wfs_fetch_all: the features returned together with the log
of requested offsets. -/
def wfs_fetch_all (server legacy : List Feature) (ps : Nat) : List Feature × List Nat :=
  (fetchAllFeatures server legacy ps 0, fetchAllOffsets server ps 0)

/-- The loop of _extract_properties (wfs_client.py lines 157-172) with its
seen set: a feature without a truthy matricule, or whose matricule was
already seen, is skipped. -/
def extractGo (seen : List String) : List Feature → List PropItem
  | [] => []
  | f :: rest =>
    match f.matricule with
    | none => extractGo seen rest
    | some m =>
      if m = "" ∨ m ∈ seen then extractGo seen rest
      else
        { matricule := m,
          adresse := match f.adresseImmeuble with
                     | some a => a
                     | none => f.adresse.getD "",
          geometry := f.geometry } :: extractGo (m :: seen) rest

/-- wfs_client._extract_properties. -/
def extract_properties (feats : List Feature) : List PropItem :=
  extractGo [] feats

/-- The sub-calls fetch_municipality_properties makes for one municipality:
the result of _wfs_hits and of _wfs_fetch_all per layer, each either a value
or an escaped exception (e.g. retries exhausted). -/
structure WfsEnv where
  hits : String → Except String Int
  fetchAll : String → Except String (List Feature)

/-- The primary-layer try block of fetch_municipality_properties
(wfs_client.py lines 184-197): some props iff the hits probe succeeded with
a positive count, the paged fetch succeeded, and extraction was non-empty;
every exception is caught and logged, falling through to the fallback. -/
def primaryResult (env : WfsEnv) : Option (List PropItem) :=
  match env.hits WFS_LAYER with
  | Except.error _ => none
  | Except.ok h =>
    if h > 0 then
      match env.fetchAll WFS_LAYER with
      | Except.error _ => none
      | Except.ok feats =>
        let props := extract_properties feats
        if props.isEmpty then none else some props
    else none

/-- Append new items whose matricule is not yet in the seen set
(the per-item dedup inside the fallback loop, lines 210-213). -/
def mergeDedup (seen : List String) (acc : List PropItem) :
    List PropItem → List String × List PropItem
  | [] => (seen, acc)
  | p :: rest =>
    if seen.contains p.matricule then mergeDedup seen acc rest
    else mergeDedup (p.matricule :: seen) (acc ++ [p]) rest

/-- The fallback-layer loop of fetch_municipality_properties (lines
199-215): each layer is probed; a non-positive count or any exception skips
just that layer; results are merged with cross-layer dedup by matricule. -/
def fallbackLayersGo (env : WfsEnv) (seen : List String) (acc : List PropItem) :
    List String → List PropItem
  | [] => acc
  | layer :: rest =>
    match env.hits layer with
    | Except.error _ => fallbackLayersGo env seen acc rest
    | Except.ok h =>
      if h ≤ 0 then fallbackLayersGo env seen acc rest
      else
        match env.fetchAll layer with
        | Except.error _ => fallbackLayersGo env seen acc rest
        | Except.ok feats =>
          match mergeDedup seen acc (extract_properties feats) with
          | (seen', acc') => fallbackLayersGo env seen' acc' rest

/-- wfs_client.fetch_municipality_properties (lines 177-221).  Note the
return type: the function returns a list in every case — every exception
raised by the helpers is caught inside it. -/
def fetch_municipality_properties (env : WfsEnv) : List PropItem :=
  match primaryResult env with
  | some props => props
  | none => fallbackLayersGo env [] [] WFS_FALLBACK_LAYERS

/-!
### Worker scrape loop: the consecutive-failure counter
(http_worker.py lines 381-433)

Per scraped item: on success the counter is set to 0; on failure it is
incremented, and when it reaches 20 the worker logs, resets the counter to 0
and recreates its HTTP session (_setup_session).  A run over a list of
per-item outcomes (true = scrape succeeded) is modelled by folding the
counter update, and the recreation events are counted alongside.
-/

/-- The per-item update of consecutive_failures, including the threshold
reset at 20. -/
def consecStep (c : Nat) (ok : Bool) : Nat :=
  if ok then 0
  else if c + 1 ≥ 20 then 0
  else c + 1

/-- Whether processing this item fires the session-recreation branch
(consecutive_failures >= 20 after the increment). -/
def sessionRecreated (c : Nat) (ok : Bool) : Bool :=
  !ok && decide (c + 1 ≥ 20)

/-- The counter value after processing a list of outcomes from counter c. -/
def runCounter (c : Nat) (l : List Bool) : Nat :=
  l.foldl consecStep c

/-- How many times the session-recreation branch fires while processing a
list of outcomes from counter c. -/
def runRecs (c : Nat) : List Bool → Nat
  | [] => 0
  | ok :: rest => (if sessionRecreated c ok then 1 else 0) + runRecs (consecStep c ok) rest

/-- Whether the session-recreation branch fires at item i of a run started
at counter 0. -/
def firedAt (l : List Bool) (i : Nat) : Bool :=
  sessionRecreated (runCounter 0 (l.take i)) (l.getD i true)

/-!
### City import (db.py lines 140-166)

parse_city_url runs urllib.parse.urlparse(url.strip()).path, strips trailing
slashes and indexes parts[-2] / parts[-1] of the '/'-split.  The relevant
fragment of CPython urlsplit/urlparse is embedded below: strip of the line,
lstrip of C0-control/space characters, removal of tab/CR/LF, scheme
detection, netloc removal after //, fragment and query split, and the params
split of urlparse for schemes in uses_params.
-/

/-- Python str.strip() whitespace (the ASCII part; exotic unicode spaces do
not occur in portal URL lists). -/
def isPySpace (c : Char) : Bool :=
  c = ' ' || c = '\t' || c = '\n' || c = '\x0d' || c = '\x0b' || c = '\x0c'

/-- Python str.strip() on the character list: drop leading and trailing
whitespace. -/
def pyStripChars (cs : List Char) : List Char :=
  ((cs.dropWhile isPySpace).reverse.dropWhile isPySpace).reverse

/-- Python str.strip(). -/
def pyStrip (s : String) : String :=
  String.mk (pyStripChars s.toList)

/-- Characters allowed after the first one in a URL scheme. -/
def isSchemeChar (c : Char) : Bool :=
  c.isAlphanum || c = '+' || c = '-' || c = '.'

/-- The scheme-splitting step of urlsplit: when the text before the first
colon is a well-formed scheme, return (lowercased scheme, text after the
colon); otherwise (no scheme) return ("", unchanged). -/
def splitScheme (cs : List Char) : String × List Char :=
  match cs.findIdx? (fun c => c = ':') with
  | none => ("", cs)
  | some i =>
    if 0 < i ∧ (cs.headD ' ').isAlpha ∧ (cs.take i).all isSchemeChar then
      (String.mk ((cs.take i).map Char.toLower), cs.drop (i + 1))
    else ("", cs)

/-- The netloc-splitting step of urlsplit: if the remainder starts with //,
drop the authority up to the next one of / ? #. -/
def splitNetloc (cs : List Char) : List Char :=
  match cs with
  | '/' :: '/' :: rest =>
    rest.drop ((rest.takeWhile (fun c => !(c = '/' || c = '?' || c = '#'))).length)
  | _ => cs

/-- The schemes for which urlparse splits params off the path
(urllib uses_params). -/
def usesParams : List String :=
  ["", "ftp", "hdl", "prospero", "http", "imap", "https", "shttp", "rtsp",
   "rtspu", "sip", "sips", "mms", "sftp", "tel"]

/-- urlparse _splitparams on the path: split at the first semicolon at or
after the last slash (or the first semicolon at all when there is no
slash). -/
def splitParamsPath (cs : List Char) : List Char :=
  match (cs.reverse.findIdx? (fun c => c = '/')) with
  | some ri =>
    match ((cs.drop (cs.length - 1 - ri)).findIdx? (fun c => c = ';')) with
    | some j => cs.take (cs.length - 1 - ri + j)
    | none => cs
  | none => cs.takeWhile (fun c => c ≠ ';')

/-- urllib.parse.urlparse(url).path. -/
def pyUrlParsePath (url : String) : String :=
  match splitScheme ((url.toList.dropWhile (fun c => c.toNat ≤ 0x20)).filter
      (fun c => !(c = '\t' || c = '\x0d' || c = '\n'))) with
  | (scheme, afterScheme) =>
    match ((splitNetloc afterScheme).takeWhile (fun c => c ≠ '#')).takeWhile
        (fun c => c ≠ '?') with
    | beforeQuery =>
      if usesParams.contains scheme ∧ beforeQuery.contains ';' then
        String.mk (splitParamsPath beforeQuery)
      else String.mk beforeQuery

/-- Python path.rstrip("/"). -/
def rstripSlashes (s : String) : String :=
  String.mk ((s.toList.reverse.dropWhile (fun c => c = '/')).reverse)

/-- Python str.split("/"): always at least one segment; empty input gives
one empty segment. -/
def splitOnSlash : List Char → List (List Char)
  | [] => [[]]
  | c :: rest =>
    if c = '/' then [] :: splitOnSlash rest
    else (c :: (splitOnSlash rest).headD []) :: (splitOnSlash rest).tail

/-- db.parse_city_url (db.py lines 140-144).  parts[-2] / parts[-1] raise
IndexError when the split has fewer than two elements (split always returns
at least one element, so the only failing case is a single element). -/
def parse_city_url (url : String) : Except String (String × String) :=
  match (splitOnSlash (rstripSlashes (pyUrlParsePath (pyStrip url))).toList).map
      String.mk with
  | parts =>
    if 2 ≤ parts.length then
      Except.ok (parts.getD (parts.length - 2) "", parts.getD (parts.length - 1) "")
    else Except.error "IndexError: list index out of range"

/-- The non-blank stripped lines of the import file
([line.strip() for line in f if line.strip()]). -/
def fileUrls (lines : List String) : List String :=
  (lines.map pyStrip).filter (fun l => l ≠ "")

/-- INSERT OR IGNORE INTO cities, deduplicated by the UNIQUE url column. -/
def cityInsertOrIgnore (cities : List CityRow) (url mun mrc now : String) :
    List CityRow × Bool :=
  if cities.any (fun c => c.url = url) then (cities, false)
  else
    (cities ++ [{ id := (cities.map (fun c => c.id)).foldl max 0 + 1, url := url,
                  municipalityId := mun, mrcName := mrc, status := "pending",
                  totalProperties := 0, scrapedCount := 0, failedCount := 0,
                  wfsFetchedAt := none, updatedAt := now }], true)

/-- The url loop inside db.import_cities_from_file, run against the working
(uncommitted) copy of the cities table; the first parse_city_url exception
aborts the whole loop. -/
def importLoop (now : String) :
    List CityRow → List String → Nat → Except String (List CityRow × Nat)
  | cities, [], inserted => Except.ok (cities, inserted)
  | cities, u :: rest, inserted =>
    match parse_city_url u with
    | Except.error e => Except.error e
    | Except.ok (mrc, mun) =>
      match cityInsertOrIgnore cities (rstripSlashes u) mun mrc now with
      | (cities', ins) =>
        importLoop now cities' rest (inserted + if ins then 1 else 0)

/-- db.import_cities_from_file (db.py lines 147-166): all inserts run inside
one _conn transaction; on an exception the transaction is rolled back and
the committed cities table is unchanged.  Returns the committed table and
either the inserted count or the escaped exception. -/
def import_cities_from_file (cities : List CityRow) (lines : List String)
    (now : String) : List CityRow × Except String Nat :=
  match importLoop now cities (fileUrls lines) 0 with
  | Except.ok (cities', n) => (cities', Except.ok n)
  | Except.error e => (cities, Except.error e)

/-!
### HTTPWorker._scrape_one (http_worker.py lines 261-326)

The three portal endpoints are abstracted as oracles: the evaluation JSON
endpoint (resolve), the sidebar endpoint keyed by the matricule argument it
is called with, and the fiche endpoint keyed by id_ue.  _fetch_sidebar and
_fetch_fiche return an empty dict on every failure, so an oracle returning
the parsed dict (empty on failure) covers both outcomes.
-/

/-- The fields _scrape_one reads from the resolve response
(properties of unite-evaluation.json). -/
structure ResolvedData where
  matriculeComplet : Option String
  dateEvenement : Option String
  lat : Option String
  lng : Option String
deriving Repr, DecidableEq

/-- The terminal store write of one _scrape_one call. -/
inductive ScrapeAction where
  | markedFailed (msg : String)
  | markedScraped (sidebar modal evaluation : List (String × String))
  | aborted
deriving Repr, DecidableEq

/-- Python dict lookup d.get(k). -/
def dictLookup (d : List (String × String)) (k : String) : Option String :=
  (d.find? (fun kv => kv.1 = k)).map (fun kv => kv.2)

/-- Python dict assignment d[k] = v (replace in place or append). -/
def dictSet (d : List (String × String)) (k v : String) : List (String × String) :=
  if (d.find? (fun kv => kv.1 = k)).isSome then
    d.map (fun kv => if kv.1 = k then (k, v) else kv)
  else d ++ [(k, v)]

/-- Python merge of two dicts (second wins on key clashes, first keeps its
key order, new keys of the second are appended). -/
def dictMerge (a b : List (String × String)) : List (String × String) :=
  a.map (fun kv =>
    match dictLookup b kv.1 with
    | some v => (kv.1, v)
    | none => kv) ++
  b.filter (fun kv => (dictLookup a kv.1).isNone)

/-- HTTPWorker._scrape_one after mark_property_scraping, for a worker whose
stop event holds the constant value stop during the call.  Returns the
terminal store write and the boolean the method returns.  today models
time.strftime of the current date. -/
def scrape_one (stop : Bool) (matricule today : String)
    (resolved : Option ResolvedData)
    (sidebarFor : String → List (String × String))
    (ficheFor : String → List (String × String)) : ScrapeAction × Bool :=
  if stop then (ScrapeAction.aborted, false)
  else
    match resolved with
    | none => (ScrapeAction.markedFailed "Matricule not found via evaluation API", false)
    | some r =>
      let matriculeComplet := r.matriculeComplet.getD matricule
      let dateRaw := r.dateEvenement.getD today
      let _dateEvenement := (dateRaw.splitOn " ").headD dateRaw
      let sb1 := sidebarFor matriculeComplet
      let sidebarData := if sb1.isEmpty then sidebarFor matricule else sb1
      if sidebarData.isEmpty then
        (ScrapeAction.markedScraped
          [("matricule", matricule), ("matricule_complet", matriculeComplet),
           ("lat", r.lat.getD ""), ("lng", r.lng.getD "")]
          []
          [("matricule", matricule), ("matricule_complet", matriculeComplet),
           ("lat", r.lat.getD ""), ("lng", r.lng.getD "")], true)
      else
        let idUe := (dictLookup sidebarData "__idUe").getD ""
        let modalData := if idUe = "" then [] else ficheFor idUe
        let sidebar2 := dictSet (dictSet (dictSet sidebarData
          "lat" (r.lat.getD "")) "lng" (r.lng.getD "")) "matricule_complet" matriculeComplet
        let cleanSidebar := sidebar2.filter (fun kv => !(kv.1.startsWith "__"))
        (ScrapeAction.markedScraped cleanSidebar modalData
          (dictMerge cleanSidebar modalData), true)

/-!
### Concrete states used to evaluate the code at specific inputs
-/

/-- A city row with the given id and status and empty counters. -/
def mkCity (i : Nat) (st : String) : CityRow :=
  { id := i, url := "https://portail.geocentralis.com/mrc-a/800", municipalityId := "800",
    mrcName := "mrc-a", status := st, totalProperties := 0, scrapedCount := 0,
    failedCount := 0, wfsFetchedAt := none, updatedAt := "t0" }

/-- A property row of the given city with the given id and status. -/
def mkProp (i cid : Nat) (mat st : String) : PropertyRow :=
  { id := i, cityId := cid, matricule := mat, adresse := "", geometry := none,
    status := st, sidebarData := none, modalData := none, evaluationData := none,
    errorMessage := none, attempts := 0, scrapedAt := none }

/-- One city still pending: the state for the get_next_city_for_wfs race. -/
def racePendingDb : DbState := { cities := [mkCity 1 "pending"], properties := [] }

/-- One city ready for scraping: the state for the claim_city_for_scraping race. -/
def raceReadyDb : DbState := { cities := [mkCity 1 "wfs_done"], properties := [] }

/-- A populated state for the count-recomputation claims: city 1 has two
scraped, one failed and one pending property; city 2 has one scraped one. -/
def countsDb : DbState :=
  { cities := [mkCity 1 "scraping", mkCity 2 "scraping"],
    properties := [mkProp 1 1 "a" "scraped", mkProp 2 1 "b" "scraped",
                   mkProp 3 1 "c" "failed", mkProp 4 1 "d" "pending",
                   mkProp 5 2 "e" "scraped"] }

/-- A state with one failed property in city 1. -/
def failedPropDb : DbState :=
  { cities := [mkCity 1 "scraping"], properties := [mkProp 1 1 "a" "failed"] }

/-- A hits oracle whose every attempt times out. -/
def allTimeoutsResp : Nat → HitsResp := fun _ => HitsResp.netErr "ReadTimeout"

/-- The sub-call results fetch_municipality_properties sees when every
layer's hits probe exhausts its retries: each env.hits call is the raised
exception of _wfs_hits under allTimeoutsResp. -/
def deadEnv : WfsEnv :=
  { hits := fun _ => wfs_hits allTimeoutsResp,
    fetchAll := fun _ => Except.error "unreachable" }

/-- Sub-call results where every layer fails with a connection error. -/
def deadEnv2 : WfsEnv :=
  { hits := fun _ => Except.error "ConnectionError",
    fetchAll := fun _ => Except.ok [] }

/-- A feature with just a matricule. -/
def mkFeat (m : String) : Feature :=
  { matricule := some m, adresseImmeuble := none, adresse := none, geometry := none }

/-- A five-feature upstream collection with one duplicated matricule. -/
def exServer : List Feature :=
  [mkFeat "0001", mkFeat "0002", mkFeat "0003", mkFeat "0001", mkFeat "0004"]

/-- An import file with one well-formed line followed by a line whose path,
with trailing slashes stripped, has a single '/'-split segment. -/
def badImportLines : List String :=
  ["https://portail.geocentralis.com/mrc-a/800/", "https://portail.geocentralis.com/"]

/-- A concrete resolve-endpoint response. -/
def exResolved : ResolvedData :=
  { matriculeComplet := some "9999-88-7766", dateEvenement := some "2025-07-08 23:59:59",
    lat := some "46.8", lng := some "-71.2" }

/-- The city-1 row countsDb produces after update_city_counts at time t1. -/
def countsCityAfter : CityRow :=
  { id := 1, url := "https://portail.geocentralis.com/mrc-a/800", municipalityId := "800",
    mrcName := "mrc-a", status := "scraping", totalProperties := 0, scrapedCount := 2,
    failedCount := 1, wfsFetchedAt := none, updatedAt := "t1" }

/-- The coordinator state at natural completion: stop unset, job running,
all workers exited, a prefetch thread still polling. -/
def drainedSys : SysState :=
  { stopEvent := false, running := true, workerAlive := false, wfsAlive := true,
    jobStatus := "running" }

/-!
## Theorems
-/

/-- find? by id over an id-preserving conditional map rewrites to a map of
the original find?. -/
theorem find?_map_conditional (l : List CityRow) (cid : Nat) (f : CityRow → CityRow)
    (hf : ∀ c, (f c).id = c.id) :
    (l.map (fun c => if c.id = cid then f c else c)).find? (fun c => c.id = cid) =
      (l.find? (fun c => c.id = cid)).map f := by
  induction l with
  | nil => rfl
  | cons a l ih =>
    by_cases h : a.id = cid
    · simp [List.find?_cons, h, hf]
    · simp [List.find?_cons, h, ih]

/-- Looking a city up after update_city_counts: the found row is the
original row with the recomputed counters. -/
theorem findCity_update_city_counts (s : DbState) (cid : Nat) (t : String) :
    findCity (update_city_counts s cid t) cid =
      (findCity s cid).map (fun c =>
        { c with scrapedCount := countPropsWithStatus s cid "scraped",
                 failedCount := countPropsWithStatus s cid "failed", updatedAt := t }) := by
  unfold findCity update_city_counts
  exact find?_map_conditional s.cities cid _ (fun c => rfl)

/-- C5 (confirmed): immediately after update_city_counts(city_id), the City
row's scraped_count equals the number of that city's property rows with
status scraped and failed_count the number with status failed; a second call
with no intervening property change leaves both counters unchanged. -/
theorem update_city_counts_correct (s : DbState) (cid : Nat) (t₁ t₂ : String)
    (c : CityRow) (h : findCity (update_city_counts s cid t₁) cid = some c) :
    c.scrapedCount = countPropsWithStatus (update_city_counts s cid t₁) cid "scraped" ∧
    c.failedCount = countPropsWithStatus (update_city_counts s cid t₁) cid "failed" ∧
    ∃ c', findCity (update_city_counts (update_city_counts s cid t₁) cid t₂) cid = some c' ∧
      c'.scrapedCount = c.scrapedCount ∧ c'.failedCount = c.failedCount := by
  rw [findCity_update_city_counts] at h
  rcases Option.map_eq_some'.1 h with ⟨c₀, hc₀, rfl⟩
  refine ⟨rfl, rfl, ?_⟩
  rw [findCity_update_city_counts, findCity_update_city_counts, hc₀]
  exact ⟨_, rfl, rfl, rfl⟩

/-- Witness for C5 at a concrete populated store. -/
theorem update_city_counts_correct_witness :
    findCity (update_city_counts countsDb 1 "t1") 1 = some countsCityAfter ∧
    (countsCityAfter.scrapedCount =
      countPropsWithStatus (update_city_counts countsDb 1 "t1") 1 "scraped" ∧
    countsCityAfter.failedCount =
      countPropsWithStatus (update_city_counts countsDb 1 "t1") 1 "failed" ∧
    ∃ c', findCity (update_city_counts (update_city_counts countsDb 1 "t1") 1 "t2") 1 =
        some c' ∧
      c'.scrapedCount = countsCityAfter.scrapedCount ∧
      c'.failedCount = countsCityAfter.failedCount) :=
  ⟨by decide, update_city_counts_correct countsDb 1 "t1" "t2" countsCityAfter (by decide)⟩

/-- C7 (code_bug evaluation): reset_failed_properties calls
update_city_counts on a second connection while its own connection still
holds the write transaction, so every call surfaces the lock-contention
error after the busy timeout and rolls back: the committed store is
unchanged and no count is returned. -/
theorem reset_failed_properties_always_locks (s : DbState) (cid : Nat) (now : String) :
    reset_failed_properties s cid now = (s, Except.error SqlErr.databaseLocked) := rfl

/-- C2 (code_bug evaluation): when the list fetch for a claimed city returns
zero properties, or raises, the prefetch loop's handler calls
db.mark_city_wfs_failed(city_id, reason) — two positional arguments against
a one-parameter def — so TypeError escapes both handlers and the iteration
leaves the store exactly as it was: the city stays in fetching_wfs and no
failure reason is recorded. -/
theorem prefetch_failure_leaves_city_stuck (s : DbState) (now : String) (cid : Nat)
    (msg : String) :
    prefetch_handle_city s now cid (FetchOutcome.ok []) = s ∧
    prefetch_handle_city s now cid (FetchOutcome.exc msg) = s :=
  ⟨rfl, rfl⟩

/-- C1 (code_bug evaluation): both claim operations are SELECT-then-UPDATE.
Under the interleaving select-A, select-B, update-A, update-B, both
invocations of get_next_city_for_wfs return city 1, and likewise for
claim_city_for_scraping; under the serialized schedule the second caller
gets none. -/
theorem concurrent_claims_return_same_city :
    ((runTwoClaims "pending" "fetching_wfs" "t1" racePendingDb claimThreadInit
        claimThreadInit [true, false, true, false]).2.1.result =
      some (some (mkCity 1 "pending")) ∧
     (runTwoClaims "pending" "fetching_wfs" "t1" racePendingDb claimThreadInit
        claimThreadInit [true, false, true, false]).2.2.result =
      some (some (mkCity 1 "pending"))) ∧
    ((runTwoClaims "wfs_done" "scraping" "t1" raceReadyDb claimThreadInit
        claimThreadInit [true, false, true, false]).2.1.result =
      some (some (mkCity 1 "wfs_done")) ∧
     (runTwoClaims "wfs_done" "scraping" "t1" raceReadyDb claimThreadInit
        claimThreadInit [true, false, true, false]).2.2.result =
      some (some (mkCity 1 "wfs_done"))) ∧
    ((runTwoClaims "pending" "fetching_wfs" "t1" racePendingDb claimThreadInit
        claimThreadInit [true, true, false, false]).2.1.result =
      some (some (mkCity 1 "pending")) ∧
     (runTwoClaims "pending" "fetching_wfs" "t1" racePendingDb claimThreadInit
        claimThreadInit [true, true, false, false]).2.2.result = some none) := by
  decide

/-- Running one claim thread to completion with no interleaving computes
exactly get_next_city_for_wfs. -/
theorem runTwoClaims_serial_is_get_next (s : DbState) (now : String) :
    (runTwoClaims "pending" "fetching_wfs" now s claimThreadInit claimThreadInit
        [true, true]).2.1.result = some (get_next_city_for_wfs s now).1 ∧
    (runTwoClaims "pending" "fetching_wfs" now s claimThreadInit claimThreadInit
        [true, true]).1 = (get_next_city_for_wfs s now).2 := by
  cases h : selectCityByStatus s "pending" <;>
    simp [runTwoClaims, claimStep, claimThreadInit, get_next_city_for_wfs, h]

/-- C3 (code_bug evaluation): the body of the WFS prefetch loop always
continues (it contains no exit path while the stop event is unset), so a
prefetch thread stays alive during natural completion; and while any
prefetch thread is alive the monitor loop changes nothing — in particular
the job status never becomes completed, however many monitor polls run. -/
theorem monitor_never_flips_while_prefetch_alive :
    (∀ (s : DbState) (now : String) (fetch : FetchOutcome),
      (wfs_prefetch_body s now fetch).2 = LoopCtl.continueLoop) ∧
    (∀ st : SysState, st.wfsAlive = true → ∀ n : Nat, monitor_step^[n] st = st) := by
  constructor
  · intro s now fetch
    unfold wfs_prefetch_body get_next_city_for_wfs
    cases selectCityByStatus s "pending" <;> rfl
  · intro st hwfs n
    have hstep : monitor_step st = st := by
      unfold monitor_step
      simp [hwfs]
    induction n with
    | zero => rfl
    | succ n ih => rw [Function.iterate_succ_apply, hstep, ih]

/-- Witness for C3 at the natural-completion state: stop unset, workers
drained, one prefetch thread still polling. -/
theorem monitor_never_flips_witness :
    drainedSys.wfsAlive = true ∧ monitor_step^[3] drainedSys = drainedSys :=
  ⟨rfl, monitor_never_flips_while_prefetch_alive.2 drainedSys rfl 3⟩

/-- C4 counterexample: with every attempt of the hits probe timing out on
every layer (retries exhausted everywhere — the inner _wfs_hits raises, as
the first conjunct shows), fetch_municipality_properties still RETURNS the
empty list instead of raising: its result is a value, not an exception, so
the empty list does not imply the upstream succeeded with zero results. -/
theorem fetch_exhausted_retries_counterexample :
    wfs_hits allTimeoutsResp = Except.error "ReadTimeout" ∧
    deadEnv.hits WFS_LAYER = Except.error "ReadTimeout" ∧
    deadEnv.hits "v_a_residentiel_1" = Except.error "ReadTimeout" ∧
    deadEnv.hits "v_a_multiresidentiel_3" = Except.error "ReadTimeout" ∧
    deadEnv.hits "v_a_non_residentiel_4" = Except.error "ReadTimeout" ∧
    deadEnv.hits "v_a_agricole_2" = Except.error "ReadTimeout" ∧
    fetch_municipality_properties deadEnv = [] :=
  ⟨rfl, rfl, rfl, rfl, rfl, rfl, rfl⟩

/-- C4 (amended): _wfs_hits raises after its WFS_MAX_RETRIES attempts are
exhausted on timeout/connection errors, but fetch_municipality_properties
catches every layer's exception and returns the empty list both on
zero-results-across-all-layers and when every layer fails; it never
raises. -/
theorem fetch_never_raises_amended (env : WfsEnv) (resp : Nat → HitsResp)
    (msgs : Nat → String)
    (hresp : ∀ a, a < WFS_MAX_RETRIES → resp a = HitsResp.netErr (msgs a))
    (hfail : ∀ l ∈ WFS_LAYER :: WFS_FALLBACK_LAYERS, ∃ e, env.hits l = Except.error e) :
    wfs_hits resp = Except.error (msgs 2) ∧
    fetch_municipality_properties env = [] := by
  constructor
  · have h0 := hresp 0 (by decide)
    have h1 := hresp 1 (by decide)
    have h2 := hresp 2 (by decide)
    simp [wfs_hits, WFS_MAX_RETRIES, wfsHitsGo, h0, h1, h2]
  · obtain ⟨e0, he0⟩ := hfail WFS_LAYER (by decide)
    obtain ⟨e1, he1⟩ := hfail "v_a_residentiel_1" (by decide)
    obtain ⟨e2, he2⟩ := hfail "v_a_multiresidentiel_3" (by decide)
    obtain ⟨e3, he3⟩ := hfail "v_a_non_residentiel_4" (by decide)
    obtain ⟨e4, he4⟩ := hfail "v_a_agricole_2" (by decide)
    simp [fetch_municipality_properties, primaryResult, WFS_FALLBACK_LAYERS,
      fallbackLayersGo, he0, he1, he2, he3, he4]

/-- Witness for the amended C4 theorem at a concrete all-failing upstream. -/
theorem fetch_never_raises_amended_witness :
    wfs_hits (fun _ => HitsResp.netErr "ConnectionError") =
      Except.error "ConnectionError" ∧
    fetch_municipality_properties deadEnv2 = [] :=
  fetch_never_raises_amended deadEnv2 (fun _ => HitsResp.netErr "ConnectionError")
    (fun _ => "ConnectionError") (fun _ _ => rfl) (fun _ _ => ⟨"ConnectionError", rfl⟩)

/-- The offsets the paged fetch requests: the head is the given start, each
successive offset advances by the page size, every offset but the last got a
full page, and the page at the last offset is short (empty counts as
short). -/
theorem fetchAllOffsets_spec (server : List Feature) (ps : Nat) (hps : 0 < ps) :
    ∀ start,
      (∃ n, fetchAllOffsets server ps start =
        (List.range (n + 1)).map (fun i => start + i * ps)) ∧
      (∀ o ∈ (fetchAllOffsets server ps start).dropLast,
        (pageAt server ps o).length = ps) ∧
      (∃ oL, (fetchAllOffsets server ps start).getLast? = some oL ∧
        (pageAt server ps oL).length < ps) := by
  have main : ∀ (k : Nat) (start : Nat), server.length - start ≤ k →
      (∃ n, fetchAllOffsets server ps start =
        (List.range (n + 1)).map (fun i => start + i * ps)) ∧
      (∀ o ∈ (fetchAllOffsets server ps start).dropLast,
        (pageAt server ps o).length = ps) ∧
      (∃ oL, (fetchAllOffsets server ps start).getLast? = some oL ∧
        (pageAt server ps oL).length < ps) := by
    intro k
    induction k with
    | zero =>
      intro start hk
      have hempty : (pageAt server ps start).isEmpty = true := by
        simp only [pageAt, List.isEmpty_iff_length_eq_zero, List.length_take,
          List.length_drop]
        omega
      have hoffs : fetchAllOffsets server ps start = [start] := by
        rw [fetchAllOffsets, if_pos hempty]
      refine ⟨⟨0, by rw [hoffs]; simp [List.range_succ]⟩, by simp [hoffs], start,
        by simp [hoffs], ?_⟩
      rw [List.isEmpty_iff_length_eq_zero] at hempty
      omega
    | succ k ih =>
      intro start hk
      by_cases hempty : (pageAt server ps start).isEmpty = true
      · have hoffs : fetchAllOffsets server ps start = [start] := by
          rw [fetchAllOffsets, if_pos hempty]
        refine ⟨⟨0, by rw [hoffs]; simp [List.range_succ]⟩, by simp [hoffs], start,
          by simp [hoffs], ?_⟩
        rw [List.isEmpty_iff_length_eq_zero] at hempty
        omega
      · by_cases hshort : (pageAt server ps start).length < ps
        · have hoffs : fetchAllOffsets server ps start = [start] := by
            rw [fetchAllOffsets, if_neg hempty, if_pos hshort]
          exact ⟨⟨0, by rw [hoffs]; simp [List.range_succ]⟩, by simp [hoffs], start,
            by simp [hoffs], hshort⟩
        · have hlenle : (pageAt server ps start).length ≤ ps := by
            simp only [pageAt, List.length_take, List.length_drop]
            omega
          have hlen : (pageAt server ps start).length = ps := by omega
          have hpos : 0 < (pageAt server ps start).length := by
            rcases Nat.eq_zero_or_pos (pageAt server ps start).length with h | h
            · exact absurd (by simpa [List.isEmpty_iff_length_eq_zero] using h) hempty
            · exact h
          have hoffs : fetchAllOffsets server ps start =
              start :: fetchAllOffsets server ps (start + ps) := by
            rw [fetchAllOffsets, if_neg hempty, if_neg hshort, hlen]
          have hstartlt : start < server.length := by
            by_contra hge
            have : (pageAt server ps start).length = 0 := by
              simp only [pageAt, List.length_take, List.length_drop]
              omega
            omega
          obtain ⟨⟨n, hshape⟩, hfull, oL, hlast, hlt⟩ :=
            ih (start + ps) (by omega)
          have hne : fetchAllOffsets server ps (start + ps) ≠ [] := by
            rw [hshape]
            simp
          refine ⟨⟨n + 1, ?_⟩, ?_, ?_⟩
          · have harith : ((fun i => start + i * ps) ∘ Nat.succ) =
                (fun i => start + ps + i * ps) := by
              funext i
              simp only [Function.comp, Nat.succ_mul]
              ring
            rw [hoffs, hshape]
            conv_rhs => rw [List.range_succ_eq_map]
            rw [List.map_cons, List.map_map, harith]
            simp
          · intro o ho
            rcases hx : fetchAllOffsets server ps (start + ps) with _ | ⟨o₀, rest⟩
            · exact absurd hx hne
            · rw [hoffs, hx] at ho
              simp only [List.dropLast, List.mem_cons] at ho
              rcases ho with rfl | ho
              · exact hlen
              · apply hfull
                rw [hx]
                simpa [List.dropLast] using ho
          · refine ⟨oL, ?_, hlt⟩
            rcases hx : fetchAllOffsets server ps (start + ps) with _ | ⟨o₀, rest⟩
            · exact absurd hx hne
            · rw [hoffs, hx, List.getLast?_cons_cons]
              rw [hx] at hlast
              exact hlast
  intro start
  exact main (server.length - start) start le_rfl

/-- Matricules extracted by _extract_properties are distinct and avoid the
incoming seen set. -/
theorem extractGo_nodup (feats : List Feature) : ∀ seen : List String,
    ((extractGo seen feats).map (fun p => p.matricule)).Nodup ∧
    ∀ m ∈ (extractGo seen feats).map (fun p => p.matricule), m ∉ seen := by
  induction feats with
  | nil => intro seen; simp [extractGo]
  | cons f rest ih =>
    intro seen
    rcases hm : f.matricule with _ | m
    · simpa [extractGo, hm] using ih seen
    · by_cases hskip : m = "" ∨ m ∈ seen
      · simpa [extractGo, hm, hskip] using ih seen
      · push_neg at hskip
        obtain ⟨ihnodup, ihfresh⟩ := ih (m :: seen)
        have hnotm : m ∉ (extractGo (m :: seen) rest).map (fun p => p.matricule) := by
          intro hmem
          exact ihfresh m hmem (List.mem_cons_self m seen)
        constructor
        · simp only [extractGo, hm, if_neg (by tauto : ¬(m = "" ∨ m ∈ seen)),
            List.map_cons, List.nodup_cons]
          exact ⟨hnotm, ihnodup⟩
        · intro x hx
          simp only [extractGo, hm, if_neg (by tauto : ¬(m = "" ∨ m ∈ seen)),
            List.map_cons, List.mem_cons] at hx
          rcases hx with rfl | hx
          · exact hskip.2
          · intro hxseen
            exact ihfresh x hx (List.mem_cons_of_mem m hxseen)

/-- C6 (confirmed): the paged fetch starts at offset 0 and advances the
offset by the page size; it terminates exactly when a page is empty or
shorter than the page size (all earlier pages are full); and the extracted
property list has pairwise-distinct matricules. -/
theorem wfs_pagination_and_dedup (server legacy : List Feature) (ps : Nat)
    (hps : 0 < ps) :
    (wfs_fetch_all server legacy ps).2 =
      (List.range (wfs_fetch_all server legacy ps).2.length).map (fun i => i * ps) ∧
    (∀ o ∈ (wfs_fetch_all server legacy ps).2.dropLast,
      (pageAt server ps o).length = ps) ∧
    (∃ oL, (wfs_fetch_all server legacy ps).2.getLast? = some oL ∧
      (pageAt server ps oL).length < ps) ∧
    ((extract_properties (wfs_fetch_all server legacy ps).1).map
      (fun p => p.matricule)).Nodup := by
  obtain ⟨⟨n, hshape⟩, hfull, hlast⟩ := fetchAllOffsets_spec server ps hps 0
  refine ⟨?_, hfull, hlast, (extractGo_nodup _ []).1⟩
  show fetchAllOffsets server ps 0 =
    (List.range (fetchAllOffsets server ps 0).length).map (fun i => i * ps)
  rw [hshape]
  simp

/-- Witness for C6 at a five-feature collection (one duplicate matricule)
fetched with page size 2: pages of length 2, 2, 1 at offsets 0, 2, 4. -/
theorem wfs_pagination_and_dedup_witness :
    (0 : Nat) < 2 ∧
    ((wfs_fetch_all exServer [] 2).2 =
      (List.range (wfs_fetch_all exServer [] 2).2.length).map (fun i => i * 2) ∧
    (∀ o ∈ (wfs_fetch_all exServer [] 2).2.dropLast,
      (pageAt exServer 2 o).length = 2) ∧
    (∃ oL, (wfs_fetch_all exServer [] 2).2.getLast? = some oL ∧
      (pageAt exServer 2 oL).length < 2) ∧
    ((extract_properties (wfs_fetch_all exServer [] 2).1).map
      (fun p => p.matricule)).Nodup) :=
  ⟨by decide, wfs_pagination_and_dedup exServer [] 2 (by decide)⟩

/-- One counter update never reaches the threshold value. -/
theorem consecStep_lt_20 (c : Nat) (ok : Bool) : consecStep c ok < 20 := by
  unfold consecStep
  split
  · omega
  · split <;> omega

/-- The running counter stays below the threshold. -/
theorem runCounter_lt_20 (l : List Bool) : ∀ c : Nat, c < 20 → runCounter c l < 20 := by
  induction l with
  | nil => intro c hc; exact hc
  | cons b t ih => intro c _; exact ih (consecStep c b) (consecStep_lt_20 c b)

/-- The running counter grows by at most one per item. -/
theorem runCounter_le (l : List Bool) : ∀ c : Nat, runCounter c l ≤ c + l.length := by
  induction l with
  | nil => intro c; simp [runCounter]
  | cons b t ih =>
    intro c
    have h1 : consecStep c b ≤ c + 1 := by
      unfold consecStep
      split
      · omega
      · split <;> omega
    have h2 := ih (consecStep c b)
    simp only [runCounter, List.foldl_cons, List.length_cons] at *
    omega

/-- Whatever the counter counts, the last runCounter-many outcomes of the
run are failures. -/
theorem runCounter_trailing (p : List Bool) :
    ∀ j, p.length - runCounter 0 p ≤ j → j < p.length → p.getD j true = false := by
  induction p using List.reverseRecOn with
  | nil => intro j _ h2; simp at h2
  | append_singleton q b ihq =>
    intro j h1 h2
    have hfold : runCounter 0 (q ++ [b]) = consecStep (runCounter 0 q) b := by
      simp [runCounter, List.foldl_append]
    rw [hfold] at h1
    rw [List.length_append, List.length_singleton] at h1 h2
    cases b with
    | true =>
      have hzero : consecStep (runCounter 0 q) true = 0 := by
        simp [consecStep]
      rw [hzero] at h1
      omega
    | false =>
      by_cases h20 : runCounter 0 q + 1 ≥ 20
      · have : consecStep (runCounter 0 q) false = 0 := by
          simp [consecStep, h20]
        omega
      · have hstep : consecStep (runCounter 0 q) false = runCounter 0 q + 1 := by
          simp [consecStep, h20]
        rw [hstep] at h1
        by_cases hj : j = q.length
        · subst hj
          simp [List.getD_eq_getElem?_getD]
        · have hjlt : j < q.length := by omega
          have := ihq j (by omega) hjlt
          simpa [List.getD_eq_getElem?_getD, List.getElem?_append_left hjlt] using this

/-- Appending one outcome adds one recreation exactly when the recreation
branch fires on it. -/
theorem runRecs_append (p : List Bool) (b : Bool) :
    ∀ c : Nat, runRecs c (p ++ [b]) =
      runRecs c p + (if sessionRecreated (runCounter c p) b then 1 else 0) := by
  induction p with
  | nil => intro c; simp [runRecs, runCounter]
  | cons x t ih =>
    intro c
    rw [List.cons_append]
    show (if sessionRecreated c x then 1 else 0) + runRecs (consecStep c x) (t ++ [b]) =
      ((if sessionRecreated c x then 1 else 0) + runRecs (consecStep c x) t) +
        (if sessionRecreated (runCounter c (x :: t)) b then 1 else 0)
    rw [ih (consecStep c x)]
    have hrc : runCounter (consecStep c x) t = runCounter c (x :: t) := rfl
    rw [hrc, Nat.add_assoc]

/-- Taking one more element appends the element at that index. -/
theorem take_succ_getD (l : List Bool) (i : Nat) (h : i < l.length) :
    l.take (i + 1) = l.take i ++ [l.getD i true] := by
  rw [List.take_succ]
  congr 1
  rw [List.getElem?_eq_getElem h]
  simp [List.getD_eq_getElem?_getD, List.getElem?_eq_getElem h]

/-- Indexing inside the taken prefix reads the original list. -/
theorem getD_take_of_lt (l : List Bool) (i j : Nat) (h : j < i) :
    (l.take i).getD j true = l.getD j true := by
  simp [List.getD_eq_getElem?_getD, List.getElem?_take, h]

/-- C8 (confirmed): in the worker scrape loop the counter never carries 20
into an item; the recreation branch fires at item i exactly when that item
fails with the counter at 19 — i.e. after 20 consecutive failures, all
visible in the outcome list — and then the session is recreated exactly
once and the counter resets to 0; any successful scrape also resets the
counter to 0. -/
theorem worker_session_recreation (l : List Bool) (i : Nat) (hi : i < l.length) :
    runCounter 0 (l.take i) < 20 ∧
    (firedAt l i = true ↔ (l.getD i true = false ∧ runCounter 0 (l.take i) = 19)) ∧
    (firedAt l i = true →
      19 ≤ i ∧ (∀ j, i - 19 ≤ j → j ≤ i → l.getD j true = false) ∧
      runCounter 0 (l.take (i + 1)) = 0 ∧
      runRecs 0 (l.take (i + 1)) = runRecs 0 (l.take i) + 1) ∧
    (l.getD i true = true → runCounter 0 (l.take (i + 1)) = 0) := by
  have hc : runCounter 0 (l.take i) < 20 := runCounter_lt_20 _ 0 (by omega)
  have hlen : (l.take i).length = i := by
    rw [List.length_take]
    omega
  have hiff : firedAt l i = true ↔
      (l.getD i true = false ∧ runCounter 0 (l.take i) = 19) := by
    have hgd : l.getD i true = l[i]?.getD true := List.getD_eq_getElem?_getD l i true
    cases hok : l[i]?.getD true <;>
      simp [firedAt, sessionRecreated, hgd, hok]
    omega
  refine ⟨hc, hiff, ?_, ?_⟩
  · intro hfire
    obtain ⟨hfalse, h19⟩ := hiff.1 hfire
    have hile : runCounter 0 (l.take i) ≤ i := by
      have := runCounter_le (l.take i) 0
      omega
    refine ⟨by omega, ?_, ?_, ?_⟩
    · intro j hj1 hj2
      rcases Nat.lt_or_ge j i with hjlt | hjge
      · have := runCounter_trailing (l.take i) j (by omega) (by omega)
        rwa [getD_take_of_lt l i j hjlt] at this
      · have : j = i := by omega
        subst this
        exact hfalse
    · rw [take_succ_getD l i hi, hfalse]
      have hfold : runCounter 0 (l.take i ++ [false]) =
          consecStep (runCounter 0 (l.take i)) false := by
        simp [runCounter, List.foldl_append]
      rw [hfold, h19]
      decide
    · rw [take_succ_getD l i hi, hfalse, runRecs_append]
      have : sessionRecreated (runCounter 0 (l.take i)) false = true := by
        simp [sessionRecreated, h19]
      rw [this]
      simp
  · intro htrue
    rw [take_succ_getD l i hi, htrue]
    simp [runCounter, List.foldl_append, consecStep]

/-- Witness for C8: twenty consecutive failures; the branch fires at the
twentieth with the counter reset and one recreation. -/
theorem worker_session_recreation_witness :
    (19 : Nat) < (List.replicate 20 false).length ∧
    (runCounter 0 ((List.replicate 20 false).take 19) < 20 ∧
    (firedAt (List.replicate 20 false) 19 = true ↔
      ((List.replicate 20 false).getD 19 true = false ∧
        runCounter 0 ((List.replicate 20 false).take 19) = 19)) ∧
    (firedAt (List.replicate 20 false) 19 = true →
      19 ≤ 19 ∧ (∀ j, 19 - 19 ≤ j → j ≤ 19 →
        (List.replicate 20 false).getD j true = false) ∧
      runCounter 0 ((List.replicate 20 false).take (19 + 1)) = 0 ∧
      runRecs 0 ((List.replicate 20 false).take (19 + 1)) =
        runRecs 0 ((List.replicate 20 false).take 19) + 1) ∧
    ((List.replicate 20 false).getD 19 true = true →
      runCounter 0 ((List.replicate 20 false).take (19 + 1)) = 0)) :=
  ⟨by decide, worker_session_recreation (List.replicate 20 false) 19 (by decide)⟩

/-- dropWhile is idempotent. -/
theorem dropWhile_dropWhile (p : Char → Bool) (l : List Char) :
    (l.dropWhile p).dropWhile p = l.dropWhile p := by
  induction l with
  | nil => rfl
  | cons a t ih =>
    by_cases h : p a
    · simp [List.dropWhile_cons, h, ih]
    · simp [List.dropWhile_cons, h]

/-- The head surviving a dropWhile fails the predicate. -/
theorem dropWhile_head_false (p : Char → Bool) (l : List Char) (x : Char)
    (xs : List Char) (h : l.dropWhile p = x :: xs) : p x = false := by
  have h3 := List.head?_dropWhile_not p l
  rw [h] at h3
  simpa using h3

/-- Stripping a trailing run leaves a prefix: its head is the original
head. -/
theorem rev_dropWhile_head (p : Char → Bool) (A : List Char) (x : Char)
    (B' : List Char) (h : (A.reverse.dropWhile p).reverse = x :: B') :
    A.head? = some x := by
  have hsplit : A = (A.reverse.dropWhile p).reverse ++ (A.reverse.takeWhile p).reverse := by
    conv_lhs => rw [← List.reverse_reverse A,
      ← List.takeWhile_append_dropWhile p A.reverse]
    rw [List.reverse_append]
  rw [hsplit, h]
  simp

/-- Python str.strip() is idempotent. -/
theorem pyStripChars_idem (cs : List Char) :
    pyStripChars (pyStripChars cs) = pyStripChars cs := by
  unfold pyStripChars
  have hBdrop :
      (((cs.dropWhile isPySpace).reverse.dropWhile isPySpace).reverse).dropWhile
          isPySpace =
        ((cs.dropWhile isPySpace).reverse.dropWhile isPySpace).reverse := by
    rcases hBc : ((cs.dropWhile isPySpace).reverse.dropWhile isPySpace).reverse with
      _ | ⟨x, B'⟩
    · rfl
    · have hAhead := rev_dropWhile_head isPySpace (cs.dropWhile isPySpace) x B' hBc
      rcases hAc : cs.dropWhile isPySpace with _ | ⟨y, rest⟩
      · rw [hAc] at hAhead
        simp at hAhead
      · rw [hAc] at hAhead
        simp only [List.head?_cons, Option.some.injEq] at hAhead
        subst hAhead
        have hpx : isPySpace y = false :=
          dropWhile_head_false isPySpace cs y rest hAc
        simp [List.dropWhile_cons, hpx]
  rw [hBdrop, List.reverse_reverse, dropWhile_dropWhile]

/-- pyStrip is idempotent (its Python counterpart str.strip is). -/
theorem pyStrip_idem (s : String) : pyStrip (pyStrip s) = pyStrip s := by
  unfold pyStrip
  rw [show (String.mk (pyStripChars s.toList)).toList = pyStripChars s.toList from rfl,
    pyStripChars_idem]

/-- parse_city_url raises IndexError exactly on the short-split paths. -/
theorem parse_city_url_error_of_short (u : String)
    (h : (splitOnSlash (rstripSlashes (pyUrlParsePath (pyStrip u))).toList).length < 2) :
    parse_city_url u = Except.error "IndexError: list index out of range" := by
  unfold parse_city_url
  rw [if_neg (by rw [List.length_map]; omega)]

/-- If some url in the batch fails to parse, the whole import loop raises. -/
theorem importLoop_error (now : String) :
    ∀ (urls : List String) (cities : List CityRow) (n : Nat),
      (∃ u ∈ urls, ∃ e, parse_city_url u = Except.error e) →
      ∃ e, importLoop now cities urls n = Except.error e := by
  intro urls
  induction urls with
  | nil =>
    intro cities n h
    obtain ⟨u, hu, _⟩ := h
    exact absurd hu (List.not_mem_nil u)
  | cons u rest ih =>
    intro cities n h
    obtain ⟨v, hv, e, he⟩ := h
    cases hp : parse_city_url u with
    | error e' => exact ⟨e', by simp [importLoop, hp]⟩
    | ok pr =>
      rcases List.mem_cons.1 hv with rfl | hvrest
      · rw [hp] at he
        exact absurd he (by simp)
      · obtain ⟨mrc, mun⟩ := pr
        have := ih (cityInsertOrIgnore cities (rstripSlashes u) mun mrc now).1
          (n + if (cityInsertOrIgnore cities (rstripSlashes u) mun mrc now).2 then 1 else 0)
          ⟨v, hvrest, e, he⟩
        obtain ⟨e', he'⟩ := this
        refine ⟨e', ?_⟩
        simp only [importLoop, hp]
        exact he'

/-- C9 (confirmed): if the import file has a non-blank line whose URL path,
after stripping trailing slashes, splits into fewer than two segments, then
import_cities_from_file raises (IndexError from parse_city_url) and the
shared transaction rolls back: the committed cities table is unchanged, even
for well-formed lines earlier in the file. -/
theorem import_malformed_line_rolls_back (cities : List CityRow)
    (lines : List String) (now : String)
    (h : ∃ line ∈ lines, pyStrip line ≠ "" ∧
      (splitOnSlash (rstripSlashes (pyUrlParsePath (pyStrip line))).toList).length < 2) :
    (import_cities_from_file cities lines now).1 = cities ∧
    ∃ e, (import_cities_from_file cities lines now).2 = Except.error e := by
  obtain ⟨line, hmem, hne, hlen⟩ := h
  have hu : pyStrip line ∈ fileUrls lines := by
    unfold fileUrls
    rw [List.mem_filter]
    exact ⟨List.mem_map_of_mem pyStrip hmem, by simpa using hne⟩
  have hparse : parse_city_url (pyStrip line) =
      Except.error "IndexError: list index out of range" := by
    apply parse_city_url_error_of_short
    rw [show pyStrip (pyStrip line) = pyStrip line from pyStrip_idem line]
    exact hlen
  obtain ⟨e', he'⟩ := importLoop_error now (fileUrls lines) cities 0
    ⟨pyStrip line, hu, _, hparse⟩
  unfold import_cities_from_file
  rw [he']
  exact ⟨rfl, e', rfl⟩

/-- Witness for C9: a well-formed line followed by a line whose path is
just a slash; the import errors and leaves the (empty) cities table
unchanged. -/
theorem import_malformed_line_witness :
    (∃ line ∈ badImportLines, pyStrip line ≠ "" ∧
      (splitOnSlash (rstripSlashes (pyUrlParsePath (pyStrip line))).toList).length < 2) ∧
    ((import_cities_from_file [] badImportLines "t").1 = [] ∧
    ∃ e, (import_cities_from_file [] badImportLines "t").2 = Except.error e) :=
  ⟨by decide, import_malformed_line_rolls_back [] badImportLines "t" (by decide)⟩

/-- C10 (confirmed): when the matricule resolves but the sidebar fetch
yields no parsed data under either matricule format, _scrape_one marks the
Property scraped with exactly the minimal field set {matricule,
matricule_complet, lat, lng} (empty modal data) and returns True — it does
not mark it failed; and mark_property_scraped sets the row status to
scraped, which is what update_city_counts counts into scraped_count. -/
theorem scrape_one_no_sidebar_minimal (matricule today : String) (r : ResolvedData)
    (sidebarFor ficheFor : String → List (String × String))
    (h1 : sidebarFor (r.matriculeComplet.getD matricule) = [])
    (h2 : sidebarFor matricule = []) :
    scrape_one false matricule today (some r) sidebarFor ficheFor =
      (ScrapeAction.markedScraped
        [("matricule", matricule),
         ("matricule_complet", r.matriculeComplet.getD matricule),
         ("lat", r.lat.getD ""), ("lng", r.lng.getD "")]
        []
        [("matricule", matricule),
         ("matricule_complet", r.matriculeComplet.getD matricule),
         ("lat", r.lat.getD ""), ("lng", r.lng.getD "")], true) ∧
    (∀ (s : DbState) (pid : Nat) (sb md ev : List (String × String)) (now : String)
      (p : PropertyRow), p ∈ (mark_property_scraped s pid sb md ev now).properties →
        p.id = pid → p.status = "scraped") := by
  constructor
  · simp [scrape_one, h1, h2]
  · intro s pid sb md ev now p hp hpid
    simp only [mark_property_scraped, List.mem_map] at hp
    obtain ⟨q, _, rfl⟩ := hp
    by_cases h : q.id = pid
    · rw [if_pos h]
    · rw [if_neg h] at hpid ⊢
      exact absurd hpid h

/-- Witness for C10 at a concrete resolved property with empty sidebar
responses. -/
theorem scrape_one_no_sidebar_minimal_witness :
    (fun _ : String => ([] : List (String × String)))
        (exResolved.matriculeComplet.getD "12-34") = [] ∧
    (fun _ : String => ([] : List (String × String))) "12-34" = [] ∧
    (scrape_one false "12-34" "2025-01-01" (some exResolved)
        (fun _ => []) (fun _ => []) =
      (ScrapeAction.markedScraped
        [("matricule", "12-34"),
         ("matricule_complet", exResolved.matriculeComplet.getD "12-34"),
         ("lat", exResolved.lat.getD ""), ("lng", exResolved.lng.getD "")]
        []
        [("matricule", "12-34"),
         ("matricule_complet", exResolved.matriculeComplet.getD "12-34"),
         ("lat", exResolved.lat.getD ""), ("lng", exResolved.lng.getD "")], true) ∧
    (∀ (s : DbState) (pid : Nat) (sb md ev : List (String × String)) (now : String)
      (p : PropertyRow), p ∈ (mark_property_scraped s pid sb md ev now).properties →
        p.id = pid → p.status = "scraped")) :=
  ⟨rfl, rfl, scrape_one_no_sidebar_minimal "12-34" "2025-01-01" exResolved
    (fun _ => []) (fun _ => []) rfl rfl⟩

end GeoC
